import Mathlib

/-!
Shallow embedding of `src/main.rs` (halo2 neural-network circuit).

The program encodes a 10 → 128 → 10 feed-forward network as a halo2
circuit.  We embed, faithfully to the source:

* halo2 `Expression<F>` (the subset of constructors this program can
  produce, plus `Selector`, which `query_selector` would produce but the
  program never does);
* the `Params` trait: `layer1_weights : [[F; 128]; 10]` (an array of 10
  arrays of 128 field elements) and `layer2_weights : [[F; 10]; 128]`
  (128 arrays of 10), modelled as `Fin`-indexed functions so the declared
  Rust shapes are the types;
* Rust index expressions `l1_weights[j][i]` / `l2_weights[j][i]` as
  guarded lookups returning `Option F` (`none` models the out-of-bounds
  panic);
* the two `create_gate` closures, the surrounding `configure`, the
  `without_witnesses` constructor and `synthesize`.

Machine integers do not occur (all loop indices stay far below any
overflow); field elements are an abstract commutative ring `F`, with `ℤ`
used for concrete witnesses.
-/

namespace NN

/-- halo2 `Expression<F>`: polynomial expressions over queried cells.
The source only ever constructs `Constant`, `Advice` (via
`query_advice(column, Rotation::cur())`, recorded here by the advice
column's index), `Sum` (from `+`) and `Scaled` (from `Expression * F`).
`Selector` is the constructor `query_selector` would yield; the source
never calls it, which is what lets us prove the gates are unguarded.
`Product` is included for completeness of the halo2 subset. -/
inductive Expression (F : Type) where
  | Constant : F → Expression F
  | Selector : Nat → Expression F
  | Advice : Nat → Expression F
  | Sum : Expression F → Expression F → Expression F
  | Product : Expression F → Expression F → Expression F
  | Scaled : Expression F → F → Expression F
deriving DecidableEq

/-- Evaluation of an expression at a row, given the advice-column values
and the selector values of that row. -/
def Expression.eval {F : Type} [CommRing F] (adv : Nat → F) (sel : Nat → F) :
    Expression F → F
  | .Constant c => c
  | .Selector s => sel s
  | .Advice c => adv c
  | .Sum a b => a.eval adv sel + b.eval adv sel
  | .Product a b => a.eval adv sel * b.eval adv sel
  | .Scaled a c => a.eval adv sel * c

/-- True when the expression contains no selector query. -/
def Expression.selectorFree {F : Type} : Expression F → Bool
  | .Constant _ => true
  | .Selector _ => false
  | .Advice _ => true
  | .Sum a b => a.selectorFree && b.selectorFree
  | .Product a b => a.selectorFree && b.selectorFree
  | .Scaled a _ => a.selectorFree

/-- The `Params<F>` trait: two pure accessors returning the fixed weight
matrices.  The Rust types are `[[F; 128]; 10]` (outer length 10, inner
length 128) and `[[F; 10]; 128]` (outer 128, inner 10); the `Fin`
indices carry exactly those declared shapes. -/
structure Params (F : Type) where
  layer1_weights : Fin 10 → Fin 128 → F
  layer2_weights : Fin 128 → Fin 10 → F

/-- Rust `l1_weights[j][i]` on `[[F; 128]; 10]`: in-bounds iff `j < 10`
and `i < 128`; an out-of-bounds index panics, modelled by `none`. -/
def l1get {F : Type} (P : Params F) (j i : Nat) : Option F :=
  if hj : j < 10 then
    if hi : i < 128 then some (P.layer1_weights ⟨j, hj⟩ ⟨i, hi⟩) else none
  else none

/-- Rust `l2_weights[j][i]` on `[[F; 10]; 128]`: in-bounds iff `j < 128`
and `i < 10`; an out-of-bounds index panics, modelled by `none`. -/
def l2get {F : Type} (P : Params F) (j i : Nat) : Option F :=
  if hj : j < 128 then
    if hi : i < 10 then some (P.layer2_weights ⟨j, hj⟩ ⟨i, hi⟩) else none
  else none

/-- Body of the closure passed to `create_gate("layer_2", ..)`,
parametrised by the weight lookup `getW` (the source instantiates it
with `l1get P`, i.e. `P::layer1_weights()` indexed as
`l1_weights[j][i]`).  Mirrors the source:
`node_exps[i] = query_advice(node_columns[i], cur)` for `i < 10`;
`next_values` starts as 128 copies of `Constant(0)`; then
`for i in 0..10 { for j in 0..128 { next_values[j] =
next_values[j] + node_exps[i] * getW j i } }`; finally
`next_values.to_vec()`.  A `none` from `getW` is the panic of the
out-of-bounds index, aborting the whole closure. -/
def layer2GateBody {F : Type} [CommRing F] (cols : Fin 128 → Nat)
    (getW : Nat → Nat → Option F) : Option (List (Expression F)) :=
  let node_exps : Fin 10 → Expression F :=
    fun i => .Advice (cols (Fin.castLE (by decide) i))
  let init : Fin 128 → Expression F := fun _ => .Constant 0
  ((List.finRange 10).foldlM (fun (acc : Fin 128 → Expression F) (i : Fin 10) =>
      (List.finRange 128).foldlM (fun (acc2 : Fin 128 → Expression F) (j : Fin 128) =>
        match getW j.val i.val with
        | none => none
        | some w =>
            some (Function.update acc2 j (.Sum (acc2 j) (.Scaled (node_exps i) w))))
        acc)
    init).map (fun nv => (List.finRange 128).map nv)

/-- Body of the closure passed to `create_gate("out_layer", ..)`,
parametrised by the weight lookup (the source instantiates it with
`l2get P`).  Mirrors the source: `node_exps[i]` for `i < 128`;
`next_values` starts as 10 copies of `Constant(0)`; then
`for i in 0..128 { for j in 0..10 { next_values[j] =
next_values[j] + node_exps[i] * getW j i } }`; finally
`next_values.to_vec()`. -/
def outLayerGateBody {F : Type} [CommRing F] (cols : Fin 128 → Nat)
    (getW : Nat → Nat → Option F) : Option (List (Expression F)) :=
  let node_exps : Fin 128 → Expression F := fun i => .Advice (cols i)
  let init : Fin 10 → Expression F := fun _ => .Constant 0
  ((List.finRange 128).foldlM (fun (acc : Fin 10 → Expression F) (i : Fin 128) =>
      (List.finRange 10).foldlM (fun (acc2 : Fin 10 → Expression F) (j : Fin 10) =>
        match getW j.val i.val with
        | none => none
        | some w =>
            some (Function.update acc2 j (.Sum (acc2 j) (.Scaled (node_exps i) w))))
        acc)
    init).map (fun nv => (List.finRange 10).map nv)

/-- The part of halo2's `ConstraintSystem<F>` this program touches:
counters for allocated advice columns, selectors and instance columns
(allocation hands out consecutive indices), and the registered gates. -/
structure ConstraintSystem (F : Type) where
  num_advice : Nat
  num_selectors : Nat
  num_instance : Nat
  gates : List (String × List (Expression F))

/-- halo2 `create_gate`: runs the closure immediately and registers the
returned polynomials under the given name.  `body = none` is the closure
panicking, which aborts `configure` itself. -/
def ConstraintSystem.create_gate {F : Type} (cs : ConstraintSystem F)
    (name : String) (body : Option (List (Expression F))) :
    Option (ConstraintSystem F) :=
  body.map (fun es => { cs with gates := cs.gates ++ [(name, es)] })

/-- The circuit's `Config`: 128 advice ("node") columns, 3 selectors,
one instance column, each recorded by its allocation index. -/
structure NeuralNetworkConfig where
  node_columns : Fin 128 → Nat
  layer_selectors : Fin 3 → Nat
  output_column : Nat

def gateName1 : String := "layer_2"

def gateName2 : String := "out_layer"

/-- `Circuit::configure`: allocates `[(); 128].map(|_| meta.advice_column())`
(consecutive indices), 3 selectors, 1 instance column, then registers the
two gates.  `none` models the panic of a gate closure propagating out of
`configure`. -/
def configure {F : Type} [CommRing F] (P : Params F) (m : ConstraintSystem F) :
    Option (ConstraintSystem F × NeuralNetworkConfig) :=
  let node_columns : Fin 128 → Nat := fun i => m.num_advice + i.val
  let m1 : ConstraintSystem F := { m with num_advice := m.num_advice + 128 }
  let layer_selectors : Fin 3 → Nat := fun i => m1.num_selectors + i.val
  let m2 : ConstraintSystem F := { m1 with num_selectors := m1.num_selectors + 3 }
  let output_column : Nat := m2.num_instance
  let m3 : ConstraintSystem F := { m2 with num_instance := m2.num_instance + 1 }
  match m3.create_gate gateName1 (layer2GateBody node_columns (l1get P)) with
  | none => none
  | some m4 =>
    match m4.create_gate gateName2 (outLayerGateBody node_columns (l2get P)) with
    | none => none
    | some m5 => some (m5, ⟨node_columns, layer_selectors, output_column⟩)

/-- The circuit struct `NeuralNetwork<F, P>`: three fixed-length arrays
of `Value<F>` (`Value` is `Known`/`unknown`, modelled as `Option F`).
The `PhantomData<P>` marker carries no data and is dropped; the
parameter provider `P` is passed to `configure` explicitly. -/
structure NeuralNetwork (F : Type) where
  layer1_values : Fin 10 → Option F
  layer2_values : Fin 128 → Option F
  layer3_values : Fin 10 → Option F

/-- `Circuit::without_witnesses`: the shape-only instance, every value
`Value::unknown()`, with the same fixed lengths 10 / 128 / 10 given by
the field types. -/
def NeuralNetwork.without_witnesses {F : Type} (_c : NeuralNetwork F) :
    NeuralNetwork F :=
  { layer1_values := fun _ => none
    layer2_values := fun _ => none
    layer3_values := fun _ => none }

/-- halo2's `Error` as far as this program observes it, plus a marker
for a Rust `unwrap` panic (the `output.map(|x| x.unwrap())` in the third
region closure). -/
inductive SynthError where
  | Synthesis : SynthError
  | Panicked : SynthError
deriving DecidableEq

/-- Modelled from the spec: the proving backend consumed by `synthesize`
(§6 external interfaces).  The backend may reject any selector
activation, cell assignment or instance binding (layout conflict,
duplicate selector activation, already-bound slot, §7); the `fail`
oracles say which primitive operations it rejects, keyed by the
operation's arguments (selector / column and absolute row; cell, instance
column and slot).  `noFail` below is the backend that accepts everything. -/
structure Backend (F : Type) where
  failEnable : Nat → Nat → Bool
  failAssign : Nat → Nat → Bool
  failBind : (Nat × Nat) → Nat → Nat → Bool

/-- A region under construction: its name, start row (absolute), the
selector activations and the advice assignments made in it, in order.
Assignments record (column, absolute row, value). -/
structure RegionCtx (F : Type) where
  name : String
  start : Nat
  enabled : List (Nat × Nat)
  assigned : List (Nat × Nat × Option F)
deriving DecidableEq

/-- halo2 `AssignedCell<F, F>`: the handle to a committed cell,
`(column, absolute row)`, together with its (possibly unknown) value. -/
structure AssignedCell (F : Type) where
  cell : Nat × Nat
  value : Option F
deriving DecidableEq

/-- `Selector::enable(&mut region, offset)`: records the activation or
is rejected by the backend. -/
def RegionCtx.enable {F : Type} (b : Backend F) (sel : Nat) (off : Nat)
    (r : RegionCtx F) : Except SynthError (RegionCtx F) :=
  if b.failEnable sel (r.start + off) then Except.error SynthError.Synthesis
  else Except.ok { r with enabled := r.enabled ++ [(sel, r.start + off)] }

/-- `Region::assign_advice(name, column, offset, value)`: records the
assignment and returns the `AssignedCell`, or is rejected. -/
def RegionCtx.assign_advice {F : Type} (b : Backend F) (col : Nat) (off : Nat)
    (v : Option F) (r : RegionCtx F) :
    Except SynthError (RegionCtx F × AssignedCell F) :=
  if b.failAssign col (r.start + off) then Except.error SynthError.Synthesis
  else
    Except.ok ({ r with assigned := r.assigned ++ [(col, r.start + off, v)] },
      { cell := (col, r.start + off), value := v })

/-- The layouter's observable state: the next free row, the committed
regions in creation order, and the instance (copy) bindings made so far,
each `(cell, instance column, slot row)`. -/
structure LayouterState (F : Type) where
  nextRow : Nat
  regions : List (RegionCtx F)
  instanceBindings : List ((Nat × Nat) × Nat × Nat)
deriving DecidableEq

/-- Modelled from the spec: `Layouter::assign_region` under the
`SimpleFloorPlanner`.  Regions are placed at increasing rows (§4.3, row
order input → hidden → output; every op in this circuit is at offset 0,
so each region is one row tall), and a region's selector activations and
assignments commit atomically — on any failure inside the closure the
whole synthesis fails and the layouter keeps no part of that region
(§4.3 guarantee, §7). -/
def LayouterState.assign_region {F A : Type} (_b : Backend F) (nm : String)
    (l : LayouterState F) (f : RegionCtx F → Except SynthError (RegionCtx F × A)) :
    Except SynthError A × LayouterState F :=
  match f { name := nm, start := l.nextRow, enabled := [], assigned := [] } with
  | Except.error e => (Except.error e, l)
  | Except.ok (r, a) =>
      (Except.ok a,
        { nextRow := l.nextRow + 1
          regions := l.regions ++ [r]
          instanceBindings := l.instanceBindings })

/-- `Layouter::constrain_instance(cell, instance_column, row)`: records
the equality binding of an assigned cell to a public instance slot, or
is rejected (e.g. slot already bound, §7). -/
def LayouterState.constrain_instance {F : Type} (b : Backend F)
    (cell : Nat × Nat) (col : Nat) (row : Nat) (l : LayouterState F) :
    Except SynthError Unit × LayouterState F :=
  if b.failBind cell col row then (Except.error SynthError.Synthesis, l)
  else
    (Except.ok (),
      { l with instanceBindings := l.instanceBindings ++ [(cell, col, row)] })

def regionName1 : String := "layer_1"

def regionName2 : String := "layer_2"

/-- Name of the third region as it appears in the source — the source
reuses the string `"layer_2"` for it. -/
def regionName3 : String := "layer_2"

/-- Closure of the first `assign_region`: enable `layer_selectors[0]` at
offset 0, then `for i in 0..10` assign `layer1_values[i]` to
`node_columns[i]` at offset 0. -/
def layer1Region {F : Type} (c : NeuralNetwork F) (cfg : NeuralNetworkConfig)
    (b : Backend F) (r : RegionCtx F) :
    Except SynthError (RegionCtx F × Unit) := do
  let r ← RegionCtx.enable b (cfg.layer_selectors 0) 0 r
  let r ← (List.finRange 10).foldlM (fun (r : RegionCtx F) (i : Fin 10) => do
      let p ← RegionCtx.assign_advice b (cfg.node_columns (Fin.castLE (by decide) i))
        0 (c.layer1_values i) r
      pure p.1) r
  pure (r, ())

/-- Closure of the second `assign_region`: enable `layer_selectors[1]`,
then `for i in 0..128` assign `layer2_values[i]` to `node_columns[i]`. -/
def layer2Region {F : Type} (c : NeuralNetwork F) (cfg : NeuralNetworkConfig)
    (b : Backend F) (r : RegionCtx F) :
    Except SynthError (RegionCtx F × Unit) := do
  let r ← RegionCtx.enable b (cfg.layer_selectors 1) 0 r
  let r ← (List.finRange 128).foldlM (fun (r : RegionCtx F) (i : Fin 128) => do
      let p ← RegionCtx.assign_advice b (cfg.node_columns i)
        0 (c.layer2_values i) r
      pure p.1) r
  pure (r, ())

/-- Closure of the third `assign_region`: enable `layer_selectors[2]`,
then `for i in 0..10` assign `layer3_values[i]` to `node_columns[i]`,
collecting the cells in `output : [Option<AssignedCell>; 10]` (starting
all `None`, setting slot `i`), finally `output.map(|x| x.unwrap())` —
the unwrap panic is `SynthError.Panicked`. -/
def layer3Region {F : Type} (c : NeuralNetwork F) (cfg : NeuralNetworkConfig)
    (b : Backend F) (r : RegionCtx F) :
    Except SynthError (RegionCtx F × List (AssignedCell F)) := do
  let r ← RegionCtx.enable b (cfg.layer_selectors 2) 0 r
  let p ← (List.finRange 10).foldlM
      (fun (p : RegionCtx F × List (Option (AssignedCell F))) (i : Fin 10) => do
        let q ← RegionCtx.assign_advice b (cfg.node_columns (Fin.castLE (by decide) i))
          0 (c.layer3_values i) p.1
        pure (q.1, p.2.set i.val (some q.2)))
      (r, List.replicate 10 (none : Option (AssignedCell F)))
  match p.2.mapM (fun x => x) with
  | some cells => pure (p.1, cells)
  | none => Except.error SynthError.Panicked

/-- The final loop of `synthesize`:
`for i in 0..output_layer3.len() { layouter.constrain_instance(output_layer3[i].cell(), config.output_column, i)? }`. -/
def bindOutputs {F : Type} (b : Backend F) (col : Nat)
    (cells : List (AssignedCell F)) (l : LayouterState F) :
    Except SynthError Unit × LayouterState F :=
  cells.enum.foldl
    (fun (p : Except SynthError Unit × LayouterState F) (ic : Nat × AssignedCell F) =>
      match p with
      | (Except.error e, l) => (Except.error e, l)
      | (Except.ok _, l) => LayouterState.constrain_instance b ic.2.cell col ic.1 l)
    (Except.ok (), l)

/-- `Circuit::synthesize`: the three `assign_region` calls chained with
`?` (any error aborts immediately, handing back the layouter as it was
after the last committed region), then the instance-binding loop over
the 10 output cells. -/
def NeuralNetwork.synthesize {F : Type} (c : NeuralNetwork F)
    (cfg : NeuralNetworkConfig) (b : Backend F) (l : LayouterState F) :
    Except SynthError Unit × LayouterState F :=
  match LayouterState.assign_region b regionName1 l (layer1Region c cfg b) with
  | (Except.error e, l1) => (Except.error e, l1)
  | (Except.ok _, l1) =>
    match LayouterState.assign_region b regionName2 l1 (layer2Region c cfg b) with
    | (Except.error e, l2) => (Except.error e, l2)
    | (Except.ok _, l2) =>
      match LayouterState.assign_region b regionName3 l2 (layer3Region c cfg b) with
      | (Except.error e, l3) => (Except.error e, l3)
      | (Except.ok output_layer3, l3) =>
          bindOutputs b cfg.output_column output_layer3 l3

/-- The backend that accepts every operation. -/
def noFail {F : Type} : Backend F :=
  { failEnable := fun _ _ => false
    failAssign := fun _ _ => false
    failBind := fun _ _ _ => false }

/-- The empty layouter: next free row 0, no regions, no bindings. -/
def emptyLayouter {F : Type} : LayouterState F :=
  { nextRow := 0, regions := [], instanceBindings := [] }

/-- True when an `Except` result is an error. -/
def isErr {ε α : Type} : Except ε α → Bool
  | Except.error _ => true
  | Except.ok _ => false

/-- The backend that rejects every operation, used for witnesses of the
failure-propagation theorem. -/
def rejectAll : Backend ℤ :=
  { failEnable := fun _ _ => true
    failAssign := fun _ _ => true
    failBind := fun _ _ _ => true }

/-- A concrete parameter provider over `ℤ` (all weights zero), used for
counterexamples and witnesses. -/
def zeroParams : Params ℤ :=
  { layer1_weights := fun _ _ => 0, layer2_weights := fun _ _ => 0 }

/-- A fresh constraint system, as handed to `configure`. -/
def csInit : ConstraintSystem ℤ :=
  { num_advice := 0, num_selectors := 0, num_instance := 0, gates := [] }

/-- A concrete config over consecutive indices, as `configure` would
allocate from a fresh constraint system, used for witnesses. -/
def cfg0 : NeuralNetworkConfig :=
  { node_columns := fun i => i.val
    layer_selectors := fun i => i.val
    output_column := 0 }

/-- A concrete all-known witness over `ℤ`, used for witnesses. -/
def intCircuit : NeuralNetwork ℤ :=
  { layer1_values := fun i => some i.val
    layer2_values := fun i => some i.val
    layer3_values := fun i => some i.val }

/-- A selector-free expression evaluates identically under any two
selector assignments: it puts the same constraint on every row. -/
lemma Expression.eval_of_selectorFree {F : Type} [CommRing F] (adv sel sel' : Nat → F) :
    ∀ e : Expression F, e.selectorFree = true → e.eval adv sel = e.eval adv sel'
  | .Constant _, _ => rfl
  | .Advice _, _ => rfl
  | .Sum a b, h => by
      simp only [Expression.selectorFree, Bool.and_eq_true] at h
      simp only [Expression.eval,
        Expression.eval_of_selectorFree adv sel sel' a h.1,
        Expression.eval_of_selectorFree adv sel sel' b h.2]
  | .Product a b, h => by
      simp only [Expression.selectorFree, Bool.and_eq_true] at h
      simp only [Expression.eval,
        Expression.eval_of_selectorFree adv sel sel' a h.1,
        Expression.eval_of_selectorFree adv sel sel' b h.2]
  | .Scaled a _, h => by
      simp only [Expression.selectorFree] at h
      simp only [Expression.eval, Expression.eval_of_selectorFree adv sel sel' a h]

/-- An invariant preserved by every step of an `Option`-valued left fold
holds of any successful result. -/
lemma foldlM_option_inv {α β : Type} (step : α → β → Option α) (Q : α → Prop)
    (hstep : ∀ a x a', Q a → step a x = some a' → Q a') :
    ∀ (l : List β) (a a' : α), Q a → l.foldlM step a = some a' → Q a' := by
  intro l
  induction l with
  | nil =>
      intro a a' hQ h
      simp only [List.foldlM_nil] at h
      cases h
      exact hQ
  | cons x xs ih =>
      intro a a' hQ h
      rw [List.foldlM_cons] at h
      cases hs : step a x with
      | none => rw [hs] at h; cases h
      | some a1 =>
          rw [hs] at h
          exact ih a1 a' (hstep a x a1 hQ hs) h

/-- An `Option`-valued left fold whose step never fails never fails. -/
lemma foldlM_option_total {α β : Type} (step : α → β → Option α)
    (h : ∀ a x, (step a x).isSome = true) :
    ∀ (l : List β) (a : α), ∃ a', l.foldlM step a = some a' := by
  intro l
  induction l with
  | nil => intro a; exact ⟨a, by simp [List.foldlM_nil]⟩
  | cons x xs ih =>
      intro a
      cases hs : step a x with
      | none => exact absurd (h a x) (by simp [hs])
      | some a1 =>
          obtain ⟨a', ha'⟩ := ih a1
          exact ⟨a', by rw [List.foldlM_cons, hs]; exact ha'⟩

/-- The nested weighted-sum fold shared by both gate closures: if the
weight lookup is total and every `node_exps` entry is selector-free,
the fold succeeds and every accumulated expression stays selector-free. -/
lemma nestedFold_some_selectorFree {F : Type} [CommRing F] (n m : Nat)
    (ne : Fin n → Expression F) (hne : ∀ i, (ne i).selectorFree = true)
    (getW : Nat → Nat → Option F) (htot : ∀ a b, (getW a b).isSome = true) :
    ∃ acc : Fin m → Expression F,
      (List.finRange n).foldlM (fun (acc : Fin m → Expression F) (i : Fin n) =>
          (List.finRange m).foldlM (fun (acc2 : Fin m → Expression F) (j : Fin m) =>
            match getW j.val i.val with
            | none => none
            | some w =>
                some (Function.update acc2 j (.Sum (acc2 j) (.Scaled (ne i) w))))
            acc)
        (fun _ => .Constant 0) = some acc ∧
      ∀ j, (acc j).selectorFree = true := by
  have hinner_tot : ∀ (i : Fin n) (acc2 : Fin m → Expression F) (j : Fin m),
      ((match getW j.val i.val with
        | none => none
        | some w =>
            some (Function.update acc2 j
              (Expression.Sum (acc2 j) (Expression.Scaled (ne i) w)))) :
        Option (Fin m → Expression F)).isSome = true := by
    intro i acc2 j
    cases hw : getW j.val i.val with
    | none => exact absurd (htot j.val i.val) (by simp [hw])
    | some w => simp
  have houter_tot : ∀ (acc : Fin m → Expression F) (i : Fin n),
      ((List.finRange m).foldlM (fun (acc2 : Fin m → Expression F) (j : Fin m) =>
          match getW j.val i.val with
          | none => none
          | some w =>
              some (Function.update acc2 j (.Sum (acc2 j) (.Scaled (ne i) w))))
        acc).isSome = true := by
    intro acc i
    obtain ⟨a', ha'⟩ := foldlM_option_total _ (hinner_tot i) (List.finRange m) acc
    simp [ha']
  obtain ⟨acc, hacc⟩ := foldlM_option_total _ houter_tot (List.finRange n)
    (fun _ => Expression.Constant 0)
  refine ⟨acc, hacc, ?_⟩
  have hQ : ∀ (a' : Fin m → Expression F),
      (List.finRange n).foldlM (fun (acc : Fin m → Expression F) (i : Fin n) =>
          (List.finRange m).foldlM (fun (acc2 : Fin m → Expression F) (j : Fin m) =>
            match getW j.val i.val with
            | none => none
            | some w =>
                some (Function.update acc2 j (.Sum (acc2 j) (.Scaled (ne i) w))))
            acc)
        (fun _ => .Constant 0) = some a' →
      ∀ j, (a' j).selectorFree = true := by
    intro a' h
    refine foldlM_option_inv _ (fun a => ∀ j, (a j).selectorFree = true) ?_
      (List.finRange n) _ a' (fun _ => rfl) h
    intro a i a' hQa houter
    refine foldlM_option_inv _ (fun a => ∀ j, (a j).selectorFree = true) ?_
      (List.finRange m) a a' hQa houter
    intro a2 j a2' hQ2 hstep
    cases hw : getW j.val i.val with
    | none => rw [hw] at hstep; cases hstep
    | some w =>
        rw [hw] at hstep
        cases hstep
        intro k
        rcases eq_or_ne k j with rfl | hkj
        · simp only [Function.update_same, Expression.selectorFree, hQ2 k,
            Bool.true_and, hne i]
        · simp only [Function.update_noteq hkj, hQ2 k]
  exact hQ acc hacc

/-- Unfolding of `layer2GateBody` into the bare fold, for rewriting. -/
lemma layer2GateBody_eq_fold {F : Type} [CommRing F] (cols : Fin 128 → Nat)
    (getW : Nat → Nat → Option F) :
    layer2GateBody cols getW =
      Option.map (fun nv => List.map nv (List.finRange 128))
        (List.foldlM
          (fun (acc : Fin 128 → Expression F) (i : Fin 10) =>
            List.foldlM
              (fun (acc2 : Fin 128 → Expression F) (j : Fin 128) =>
                match getW j.val i.val with
                | none => none
                | some w =>
                    some (Function.update acc2 j
                      (Expression.Sum (acc2 j)
                        (Expression.Scaled
                          (Expression.Advice (cols (Fin.castLE (by decide) i))) w))))
              acc (List.finRange 128))
          (fun _ => Expression.Constant 0) (List.finRange 10)) := rfl

/-- Unfolding of `outLayerGateBody` into the bare fold, for rewriting. -/
lemma outLayerGateBody_eq_fold {F : Type} [CommRing F] (cols : Fin 128 → Nat)
    (getW : Nat → Nat → Option F) :
    outLayerGateBody cols getW =
      Option.map (fun nv => List.map nv (List.finRange 10))
        (List.foldlM
          (fun (acc : Fin 10 → Expression F) (i : Fin 128) =>
            List.foldlM
              (fun (acc2 : Fin 10 → Expression F) (j : Fin 10) =>
                match getW j.val i.val with
                | none => none
                | some w =>
                    some (Function.update acc2 j
                      (Expression.Sum (acc2 j)
                        (Expression.Scaled (Expression.Advice (cols i)) w))))
              acc (List.finRange 10))
          (fun _ => Expression.Constant 0) (List.finRange 128)) := rfl

/-- With a total (never-panicking) weight lookup the hidden-layer gate
closure would succeed, and every expression it returns is selector-free. -/
lemma layer2GateBody_total {F : Type} [CommRing F] (cols : Fin 128 → Nat)
    (g : Nat → Nat → F) :
    ∃ es, layer2GateBody cols (fun j i => some (g j i)) = some es ∧
      ∀ e ∈ es, e.selectorFree = true := by
  obtain ⟨acc, hacc, hsel⟩ := nestedFold_some_selectorFree 10 128
    (fun i : Fin 10 => Expression.Advice (cols (Fin.castLE (by decide) i)))
    (fun _ => rfl) (fun j i => some (g j i)) (fun _ _ => rfl)
  refine ⟨(List.finRange 128).map acc, ?_, ?_⟩
  · rw [layer2GateBody_eq_fold, hacc]
    rfl
  · intro e he
    rw [List.mem_map] at he
    obtain ⟨j, _, rfl⟩ := he
    exact hsel j

/-- With a total (never-panicking) weight lookup the output gate closure
would succeed, and every expression it returns is selector-free. -/
lemma outLayerGateBody_total {F : Type} [CommRing F] (cols : Fin 128 → Nat)
    (g : Nat → Nat → F) :
    ∃ es, outLayerGateBody cols (fun j i => some (g j i)) = some es ∧
      ∀ e ∈ es, e.selectorFree = true := by
  obtain ⟨acc, hacc, hsel⟩ := nestedFold_some_selectorFree 128 10
    (fun i : Fin 128 => Expression.Advice (cols i))
    (fun _ => rfl) (fun j i => some (g j i)) (fun _ _ => rfl)
  refine ⟨(List.finRange 10).map acc, ?_, ?_⟩
  · rw [outLayerGateBody_eq_fold, hacc]
    rfl
  · intro e he
    rw [List.mem_map] at he
    obtain ⟨j, _, rfl⟩ := he
    exact hsel j

/-- The hidden-layer gate closure aborts: its very first inner loop pass
with `i = 0` reaches `j = 10` and reads `l1_weights[10]` on the outer
array of length 10.  Holds for every parameter provider. -/
lemma layer2GateBody_l1get {F : Type} [CommRing F] (P : Params F)
    (cols : Fin 128 → Nat) : layer2GateBody cols (l1get P) = none := rfl

/-- The output gate closure aborts: at `i = 10`, `j = 0` it reads
`l2_weights[0][10]` on an inner array of length 10. -/
lemma outLayerGateBody_l2get {F : Type} [CommRing F] (P : Params F)
    (cols : Fin 128 → Nat) : outLayerGateBody cols (l2get P) = none := rfl

lemma except_bind_ok {ε α β : Type} (a : α) (f : α → Except ε β) :
    (Except.ok a >>= f) = f a := rfl

lemma except_pure_bind {ε α β : Type} (a : α) (f : α → Except ε β) :
    ((pure a : Except ε α) >>= f) = f a := rfl

/-- Running the assignment loop of the first two region closures under a
backend that accepts everything: every value lands in its column at the
region's row, in loop order. -/
lemma assignLoop_noFail {F : Type} {n : Nat} (colf : Fin n → Nat) (vf : Fin n → Option F) :
    ∀ (l : List (Fin n)) (r : RegionCtx F),
      l.foldlM (fun (r : RegionCtx F) (i : Fin n) => do
          let p ← RegionCtx.assign_advice noFail (colf i) 0 (vf i) r
          pure p.1) r =
      Except.ok { r with assigned :=
        r.assigned ++ l.map (fun i => (colf i, r.start, vf i)) } := by
  intro l
  induction l with
  | nil => intro r; simp only [List.foldlM_nil, List.map_nil, List.append_nil]; rfl
  | cons i l ih =>
      intro r
      rw [List.foldlM_cons]
      have hstep : RegionCtx.assign_advice (F := F) noFail (colf i) 0 (vf i) r =
          Except.ok ({ r with assigned := r.assigned ++ [(colf i, r.start, vf i)] },
            { cell := (colf i, r.start), value := vf i }) := by
        simp [RegionCtx.assign_advice, noFail]
      rw [hstep]
      show (l.foldlM _ _) = _
      rw [ih]
      simp [List.append_assoc]

/-- The first region closure under the all-accepting backend: selector 0
activated at the region's row, the 10 input values assigned to node
columns 0..10. -/
lemma layer1Region_noFail {F : Type} (c : NeuralNetwork F) (cfg : NeuralNetworkConfig)
    (r : RegionCtx F) :
    layer1Region c cfg noFail r =
      Except.ok
        ({ r with
            enabled := r.enabled ++ [(cfg.layer_selectors 0, r.start)]
            assigned := r.assigned ++ (List.finRange 10).map
              (fun i => (cfg.node_columns (Fin.castLE (by decide) i), r.start,
                c.layer1_values i)) },
         ()) := by
  unfold layer1Region
  have hen : RegionCtx.enable (F := F) noFail (cfg.layer_selectors 0) 0 r =
      Except.ok { r with enabled := r.enabled ++ [(cfg.layer_selectors 0, r.start)] } := by
    simp [RegionCtx.enable, noFail]
  rw [hen]
  have hbind : ∀ {α β : Type} (a : α) (f : α → Except SynthError β),
      (Except.ok a >>= f) = f a := fun _ _ => rfl
  rw [hbind]
  rw [assignLoop_noFail (fun i : Fin 10 => cfg.node_columns (Fin.castLE (by decide) i))
    (fun i => c.layer1_values i)]
  rw [hbind]
  rfl

/-- The second region closure under the all-accepting backend: selector 1
activated, the 128 hidden values assigned to node columns 0..128. -/
lemma layer2Region_noFail {F : Type} (c : NeuralNetwork F) (cfg : NeuralNetworkConfig)
    (r : RegionCtx F) :
    layer2Region c cfg noFail r =
      Except.ok
        ({ r with
            enabled := r.enabled ++ [(cfg.layer_selectors 1, r.start)]
            assigned := r.assigned ++ (List.finRange 128).map
              (fun i => (cfg.node_columns i, r.start, c.layer2_values i)) },
         ()) := by
  unfold layer2Region
  have hen : RegionCtx.enable (F := F) noFail (cfg.layer_selectors 1) 0 r =
      Except.ok { r with enabled := r.enabled ++ [(cfg.layer_selectors 1, r.start)] } := by
    simp [RegionCtx.enable, noFail]
  rw [hen, except_bind_ok]
  rw [assignLoop_noFail (fun i : Fin 128 => cfg.node_columns i)
    (fun i => c.layer2_values i)]
  rw [except_bind_ok]
  rfl

/-- The pair-accumulating assignment loop of the third region closure
under the all-accepting backend. -/
lemma assignLoop3_noFail {F : Type} {n : Nat} (colf : Fin n → Nat) (vf : Fin n → Option F) :
    ∀ (l : List (Fin n)) (r : RegionCtx F) (outs : List (Option (AssignedCell F))),
      l.foldlM (fun (p : RegionCtx F × List (Option (AssignedCell F))) (i : Fin n) => do
          let q ← RegionCtx.assign_advice noFail (colf i) 0 (vf i) p.1
          pure (q.1, p.2.set i.val (some q.2))) (r, outs) =
      Except.ok
        ({ r with assigned := r.assigned ++ l.map (fun i => (colf i, r.start, vf i)) },
         l.foldl (fun (o : List (Option (AssignedCell F))) (i : Fin n) =>
           o.set i.val (some { cell := (colf i, r.start), value := vf i })) outs) := by
  intro l
  induction l with
  | nil =>
      intro r outs
      simp only [List.foldlM_nil, List.map_nil, List.append_nil, List.foldl_nil]
      rfl
  | cons i l ih =>
      intro r outs
      rw [List.foldlM_cons]
      have hstep : RegionCtx.assign_advice (F := F) noFail (colf i) 0 (vf i) r =
          Except.ok ({ r with assigned := r.assigned ++ [(colf i, r.start, vf i)] },
            { cell := (colf i, r.start), value := vf i }) := by
        simp [RegionCtx.assign_advice, noFail]
      show (RegionCtx.assign_advice noFail (colf i) 0 (vf i) r >>= _) >>= _ = _
      rw [hstep, except_bind_ok, except_pure_bind]
      rw [ih]
      dsimp only
      simp [List.append_assoc]

/-- Setting slots 0..10 of an all-`None` 10-list in index order fills it
with the given cells, in index order. -/
lemma setAll_finRange {F : Type} (cellf : Fin 10 → AssignedCell F) :
    (List.finRange 10).foldl (fun (o : List (Option (AssignedCell F))) (i : Fin 10) =>
      o.set i.val (some (cellf i))) (List.replicate 10 none) =
    (List.finRange 10).map (fun i => some (cellf i)) := rfl

/-- Unwrapping an all-`Some` 10-list succeeds and preserves order. -/
lemma mapM_map_some {F : Type} (cellf : Fin 10 → AssignedCell F) :
    ((List.finRange 10).map (fun i => some (cellf i))).mapM (fun x => x) =
      some ((List.finRange 10).map cellf) := rfl

/-- The third region closure under the all-accepting backend: selector 2
activated, the 10 output values assigned to node columns 0..10, and the
10 `AssignedCell`s returned in index order. -/
lemma layer3Region_noFail {F : Type} (c : NeuralNetwork F) (cfg : NeuralNetworkConfig)
    (r : RegionCtx F) :
    layer3Region c cfg noFail r =
      Except.ok
        ({ r with
            enabled := r.enabled ++ [(cfg.layer_selectors 2, r.start)]
            assigned := r.assigned ++ (List.finRange 10).map
              (fun i => (cfg.node_columns (Fin.castLE (by decide) i), r.start,
                c.layer3_values i)) },
         (List.finRange 10).map (fun i =>
           { cell := (cfg.node_columns (Fin.castLE (by decide) i), r.start),
             value := c.layer3_values i })) := by
  unfold layer3Region
  have hen : RegionCtx.enable (F := F) noFail (cfg.layer_selectors 2) 0 r =
      Except.ok { r with enabled := r.enabled ++ [(cfg.layer_selectors 2, r.start)] } := by
    simp [RegionCtx.enable, noFail]
  rw [hen, except_bind_ok]
  rw [assignLoop3_noFail (fun i : Fin 10 => cfg.node_columns (Fin.castLE (by decide) i))
    (fun i => c.layer3_values i)]
  rw [except_bind_ok]
  dsimp only
  rw [setAll_finRange (fun i : Fin 10 =>
    { cell := (cfg.node_columns (Fin.castLE (by decide) i), r.start),
      value := c.layer3_values i })]
  rw [mapM_map_some]
  rfl

/-- The instance-binding loop under the all-accepting backend, for any
start index of the enumeration. -/
lemma bindLoop_noFail {F : Type} (col : Nat) :
    ∀ (cells : List (AssignedCell F)) (k : Nat) (l : LayouterState F),
      (List.enumFrom k cells).foldl
        (fun (p : Except SynthError Unit × LayouterState F) (ic : Nat × AssignedCell F) =>
          match p with
          | (Except.error e, l) => (Except.error e, l)
          | (Except.ok _, l) => LayouterState.constrain_instance noFail ic.2.cell col ic.1 l)
        (Except.ok (), l) =
      (Except.ok (),
        { l with instanceBindings := l.instanceBindings ++
            (List.enumFrom k cells).map (fun ic => (ic.2.cell, col, ic.1)) }) := by
  intro cells
  induction cells with
  | nil => intro k l; simp [List.enumFrom]
  | cons cell cells ih =>
      intro k l
      simp only [List.enumFrom, List.foldl_cons, List.map_cons]
      have hc : LayouterState.constrain_instance (F := F) noFail cell.cell col k l =
          (Except.ok (), { l with instanceBindings :=
            l.instanceBindings ++ [(cell.cell, col, k)] }) := by
        simp [LayouterState.constrain_instance, noFail]
      show (List.enumFrom (k+1) cells).foldl _
          (LayouterState.constrain_instance noFail cell.cell col k l) = _
      rw [hc, ih (k+1)]
      simp [List.append_assoc]

/-- `bindOutputs` under the all-accepting backend: one binding per cell,
slot index = list index, order preserved. -/
lemma bindOutputs_noFail {F : Type} (col : Nat) (cells : List (AssignedCell F))
    (l : LayouterState F) :
    bindOutputs noFail col cells l =
      (Except.ok (),
        { l with instanceBindings := l.instanceBindings ++
            cells.enum.map (fun ic => (ic.2.cell, col, ic.1)) }) := by
  unfold bindOutputs
  exact bindLoop_noFail col cells 0 l

/-- `assign_region` on a successful closure commits the region and bumps
the next free row. -/
lemma assign_region_ok {F A : Type} (b : Backend F) (nm : String) (l : LayouterState F)
    (f : RegionCtx F → Except SynthError (RegionCtx F × A)) (r : RegionCtx F) (a : A)
    (h : f { name := nm, start := l.nextRow, enabled := [], assigned := [] } =
      Except.ok (r, a)) :
    LayouterState.assign_region b nm l f =
      (Except.ok a,
        { nextRow := l.nextRow + 1
          regions := l.regions ++ [r]
          instanceBindings := l.instanceBindings }) := by
  unfold LayouterState.assign_region
  rw [h]

/-- The full successful synthesis run from an empty layouter under the
all-accepting backend, with the three regions at rows 0, 1, 2 and the
ten instance bindings. -/
lemma synthesize_noFail {F : Type} (c : NeuralNetwork F) (cfg : NeuralNetworkConfig) :
    NeuralNetwork.synthesize c cfg noFail emptyLayouter =
      (Except.ok (),
        { nextRow := 3
          regions :=
            [{ name := regionName1, start := 0,
               enabled := [(cfg.layer_selectors 0, 0)],
               assigned := (List.finRange 10).map
                 (fun i => (cfg.node_columns (Fin.castLE (by decide) i), 0,
                   c.layer1_values i)) },
             { name := regionName2, start := 1,
               enabled := [(cfg.layer_selectors 1, 1)],
               assigned := (List.finRange 128).map
                 (fun i => (cfg.node_columns i, 1, c.layer2_values i)) },
             { name := regionName3, start := 2,
               enabled := [(cfg.layer_selectors 2, 2)],
               assigned := (List.finRange 10).map
                 (fun i => (cfg.node_columns (Fin.castLE (by decide) i), 2,
                   c.layer3_values i)) }]
          instanceBindings := (List.finRange 10).map
            (fun i => ((cfg.node_columns (Fin.castLE (by decide) i), 2),
              cfg.output_column, i.val)) }) := by
  unfold NeuralNetwork.synthesize
  rw [assign_region_ok noFail regionName1 emptyLayouter _ _ _ (layer1Region_noFail c cfg _)]
  dsimp only
  rw [assign_region_ok noFail regionName2 _ _ _ _ (layer2Region_noFail c cfg _)]
  dsimp only
  rw [assign_region_ok noFail regionName3 _ _ _ _ (layer3Region_noFail c cfg _)]
  dsimp only
  rw [bindOutputs_noFail]
  rfl

/-- `assign_region` either fails, handing back the layouter unchanged,
or commits exactly the closure's region. -/
lemma assign_region_cases {F A : Type} (b : Backend F) (nm : String) (l : LayouterState F)
    (f : RegionCtx F → Except SynthError (RegionCtx F × A)) :
    (∃ e, f { name := nm, start := l.nextRow, enabled := [], assigned := [] } =
        Except.error e ∧
      LayouterState.assign_region b nm l f = (Except.error e, l)) ∨
    (∃ r a, f { name := nm, start := l.nextRow, enabled := [], assigned := [] } =
        Except.ok (r, a) ∧
      LayouterState.assign_region b nm l f =
        (Except.ok a,
          { nextRow := l.nextRow + 1
            regions := l.regions ++ [r]
            instanceBindings := l.instanceBindings })) := by
  unfold LayouterState.assign_region
  cases hf : f { name := nm, start := l.nextRow, enabled := [], assigned := [] } with
  | error e => exact Or.inl ⟨e, rfl, rfl⟩
  | ok p =>
      obtain ⟨r, a⟩ := p
      exact Or.inr ⟨r, a, rfl, rfl⟩

/-- C1: the claim says the hidden-layer gate registered by `configure`
asserts, for each of the 128 hidden neurons `j`, equality between the
value in node column `j` (selector-guarded) and
`Σ_{i<10} node_i · W1[j][i]`.  The code registers no such gate: the
closure passed to `create_gate("layer_2")` reads `l1_weights[j][i]` with
`j` up to 127 on `[[F; 128]; 10]`, whose outer length is 10, so it
panics at `i = 0, j = 10` (`l1get P 10 0 = none`) and never produces any
polynomial — and the expressions it was building contain neither a
selector factor nor the destination value `node_j`.  Holds for every
field, parameter provider and column allocation. -/
theorem hidden_gate_closure_panics {F : Type} [CommRing F] (P : Params F)
    (cols : Fin 128 → Nat) :
    l1get P 10 0 = none ∧ layer2GateBody cols (l1get P) = none :=
  ⟨rfl, layer2GateBody_l1get P cols⟩

/-- C2: the claim says the output gate asserts, for each of the 10
output neurons `j`, equality with `Σ_{i<128} node_i · W2[j][i]`.  The
code registers no such gate: the closure passed to
`create_gate("out_layer")` reads `l2_weights[j][i]` with `i` up to 127
on `[[F; 10]; 128]`, whose inner length is 10, so it panics at
`i = 10, j = 0` (`l2get P 0 10 = none`) and never produces any
polynomial. -/
theorem output_gate_closure_panics {F : Type} [CommRing F] (P : Params F)
    (cols : Fin 128 → Nat) :
    l2get P 0 10 = none ∧ outLayerGateBody cols (l2get P) = none :=
  ⟨rfl, outLayerGateBody_l2get P cols⟩

/-- C3: the claim says evaluating the two gate-construction closures
never indexes the weight matrices out of bounds, so `configure`
completes without panicking.  In fact `configure` always panics: for
every field, parameter provider and starting constraint system the gate
closures index out of bounds and `configure` aborts, registering
nothing. -/
theorem configure_panics {F : Type} [CommRing F] (P : Params F)
    (m : ConstraintSystem F) : configure P m = none := rfl

/-- C4: the claim says each gate is guarded by its region's selector —
vanishing exactly where the selector is 1 and unconstrained where it is
0.  The code's gates are not: `configure` panics before registering any
gate (see `configure_panics`), and the closures never query a selector,
so even with the out-of-bounds indexing repaired (a total weight lookup)
every polynomial either closure returns is selector-free and evaluates
identically under any two selector assignments — it would constrain
every row of the circuit equally. -/
theorem gates_not_selector_guarded {F : Type} [CommRing F]
    (cols : Fin 128 → Nat) (g1 g2 : Nat → Nat → F) :
    (∃ es, layer2GateBody cols (fun j i => some (g1 j i)) = some es ∧
       ∀ e ∈ es, e.selectorFree = true ∧
         ∀ adv sel sel' : Nat → F, e.eval adv sel = e.eval adv sel') ∧
    (∃ es, outLayerGateBody cols (fun j i => some (g2 j i)) = some es ∧
       ∀ e ∈ es, e.selectorFree = true ∧
         ∀ adv sel sel' : Nat → F, e.eval adv sel = e.eval adv sel') := by
  constructor
  · obtain ⟨es, hes, hfree⟩ := layer2GateBody_total cols g1
    exact ⟨es, hes, fun e he => ⟨hfree e he, fun adv sel sel' =>
      Expression.eval_of_selectorFree adv sel sel' e (hfree e he)⟩⟩
  · obtain ⟨es, hes, hfree⟩ := outLayerGateBody_total cols g2
    exact ⟨es, hes, fun e he => ⟨hfree e he, fun adv sel sel' =>
      Expression.eval_of_selectorFree adv sel sel' e (hfree e he)⟩⟩

/-- C5: `synthesize` (run from a fresh layouter, with a backend that
accepts every operation) succeeds and creates exactly three regions in
increasing row order — rows 0, 1, 2: the input region assigns the 10
input values into node columns 0..10 with selector 0 enabled, the
hidden region the 128 hidden values into node columns 0..128 with
selector 1, the output region the 10 output values into node columns
0..10 with selector 2 — and the output region's closure returns the 10
resulting `AssignedCell`s in index order. -/
theorem synthesize_three_regions_in_order {F : Type} (c : NeuralNetwork F)
    (cfg : NeuralNetworkConfig) :
    (NeuralNetwork.synthesize c cfg noFail emptyLayouter).1 = Except.ok () ∧
    (NeuralNetwork.synthesize c cfg noFail emptyLayouter).2.regions =
      [{ name := regionName1, start := 0,
         enabled := [(cfg.layer_selectors 0, 0)],
         assigned := (List.finRange 10).map
           (fun i => (cfg.node_columns (Fin.castLE (by decide) i), 0,
             c.layer1_values i)) },
       { name := regionName2, start := 1,
         enabled := [(cfg.layer_selectors 1, 1)],
         assigned := (List.finRange 128).map
           (fun i => (cfg.node_columns i, 1, c.layer2_values i)) },
       { name := regionName3, start := 2,
         enabled := [(cfg.layer_selectors 2, 2)],
         assigned := (List.finRange 10).map
           (fun i => (cfg.node_columns (Fin.castLE (by decide) i), 2,
             c.layer3_values i)) }] ∧
    layer3Region c cfg noFail
      { name := regionName3, start := 2, enabled := [], assigned := [] } =
      Except.ok
        ({ name := regionName3, start := 2,
           enabled := [(cfg.layer_selectors 2, 2)],
           assigned := (List.finRange 10).map
             (fun i => (cfg.node_columns (Fin.castLE (by decide) i), 2,
               c.layer3_values i)) },
         (List.finRange 10).map (fun i =>
           { cell := (cfg.node_columns (Fin.castLE (by decide) i), 2),
             value := c.layer3_values i })) := by
  refine ⟨?_, ?_, ?_⟩
  · rw [synthesize_noFail]
  · rw [synthesize_noFail]
  · rw [layer3Region_noFail]
    rfl

/-- C6: after the three regions are assigned, `synthesize` binds the
`i`-th output cell — the cell at (node column `i`, row 2), the output
region's row — to instance slot `i`, for `i = 0..10`, in order; the
binding loop runs only after the third `assign_region` has returned all
10 cells, so all three regions are committed (`regions.length = 3`)
when the bindings are made. -/
theorem outputs_bound_to_instances_in_order {F : Type} (c : NeuralNetwork F)
    (cfg : NeuralNetworkConfig) :
    (NeuralNetwork.synthesize c cfg noFail emptyLayouter).1 = Except.ok () ∧
    (NeuralNetwork.synthesize c cfg noFail emptyLayouter).2.instanceBindings =
      (List.finRange 10).map
        (fun i => ((cfg.node_columns (Fin.castLE (by decide) i), 2),
          cfg.output_column, i.val)) ∧
    (NeuralNetwork.synthesize c cfg noFail emptyLayouter).2.regions.length = 3 := by
  refine ⟨?_, ?_, ?_⟩
  · rw [synthesize_noFail]
  · rw [synthesize_noFail]
  · rw [synthesize_noFail]
    rfl

/-- C7: if any of the three region closures fails (a rejected selector
activation or cell assignment, or the unwrap panic), `synthesize`
returns that single error and aborts: the layouter keeps no instance
binding and at most the regions that preceded the failing one (strictly
fewer than all three), so a synthesis either fully succeeds or produces
no partial result. -/
theorem synthesize_aborts_on_region_failure {F : Type} (c : NeuralNetwork F)
    (cfg : NeuralNetworkConfig) (b : Backend F) (l : LayouterState F)
    (h : isErr (LayouterState.assign_region b regionName1 l (layer1Region c cfg b)).1 = true ∨
      isErr (LayouterState.assign_region b regionName2
        (LayouterState.assign_region b regionName1 l (layer1Region c cfg b)).2
        (layer2Region c cfg b)).1 = true ∨
      isErr (LayouterState.assign_region b regionName3
        (LayouterState.assign_region b regionName2
          (LayouterState.assign_region b regionName1 l (layer1Region c cfg b)).2
          (layer2Region c cfg b)).2
        (layer3Region c cfg b)).1 = true) :
    isErr (NeuralNetwork.synthesize c cfg b l).1 = true ∧
    (NeuralNetwork.synthesize c cfg b l).2.instanceBindings = l.instanceBindings ∧
    (NeuralNetwork.synthesize c cfg b l).2.regions.length ≤ l.regions.length + 2 := by
  unfold NeuralNetwork.synthesize
  rcases assign_region_cases b regionName1 l (layer1Region c cfg b) with
    ⟨e1, _, heq1⟩ | ⟨r1, a1, _, heq1⟩
  · rw [heq1]
    exact ⟨rfl, rfl, Nat.le_add_right _ _⟩
  · rw [heq1]
    dsimp only
    rcases assign_region_cases b regionName2
      { nextRow := l.nextRow + 1
        regions := l.regions ++ [r1]
        instanceBindings := l.instanceBindings } (layer2Region c cfg b) with
      ⟨e2, _, heq2⟩ | ⟨r2, a2, _, heq2⟩
    · rw [heq2]
      refine ⟨rfl, rfl, ?_⟩
      simp [List.length_append]
    · rw [heq2]
      dsimp only
      rcases assign_region_cases b regionName3
        { nextRow := l.nextRow + 1 + 1
          regions := (l.regions ++ [r1]) ++ [r2]
          instanceBindings := l.instanceBindings } (layer3Region c cfg b) with
        ⟨e3, _, heq3⟩ | ⟨r3, a3, _, heq3⟩
      · rw [heq3]
        refine ⟨rfl, rfl, ?_⟩
        simp [List.length_append]
      · exfalso
        rw [heq1] at h
        dsimp only at h
        rw [heq2] at h
        dsimp only at h
        rw [heq3] at h
        simp [isErr] at h

/-- Witness for `synthesize_aborts_on_region_failure`: under the
all-rejecting backend the very first selector activation fails, and the
concrete run aborts with the layouter untouched. -/
theorem synthesize_aborts_on_region_failure_witness :
    (isErr (LayouterState.assign_region rejectAll regionName1 emptyLayouter
        (layer1Region intCircuit cfg0 rejectAll)).1 = true ∨
      isErr (LayouterState.assign_region rejectAll regionName2
        (LayouterState.assign_region rejectAll regionName1 emptyLayouter
          (layer1Region intCircuit cfg0 rejectAll)).2
        (layer2Region intCircuit cfg0 rejectAll)).1 = true ∨
      isErr (LayouterState.assign_region rejectAll regionName3
        (LayouterState.assign_region rejectAll regionName2
          (LayouterState.assign_region rejectAll regionName1 emptyLayouter
            (layer1Region intCircuit cfg0 rejectAll)).2
          (layer2Region intCircuit cfg0 rejectAll)).2
        (layer3Region intCircuit cfg0 rejectAll)).1 = true) ∧
    (isErr (NeuralNetwork.synthesize intCircuit cfg0 rejectAll emptyLayouter).1 = true ∧
      (NeuralNetwork.synthesize intCircuit cfg0 rejectAll emptyLayouter).2.instanceBindings =
        (emptyLayouter : LayouterState ℤ).instanceBindings ∧
      (NeuralNetwork.synthesize intCircuit cfg0 rejectAll emptyLayouter).2.regions.length ≤
        (emptyLayouter : LayouterState ℤ).regions.length + 2) :=
  ⟨Or.inl (by decide),
    synthesize_aborts_on_region_failure intCircuit cfg0 rejectAll emptyLayouter
      (Or.inl (by decide))⟩

/-- C8 counterexample: the claim says two calls of `configure` with
identical weight matrices yield equivalent shapes.  No call yields a
shape at all: at the concrete all-zero integer weights and a fresh
constraint system, `configure` aborts (out-of-bounds weight indexing in
the gate closures) and returns no shape. -/
theorem configure_yields_no_shape : configure zeroParams csInit = none := rfl

/-- C8 (amended): construction is deterministic in the two-run sense —
`configure` depends only on the weight matrices (two providers with
pointwise-equal weights give identical outcomes; in this code that
outcome is the panic, so no shape is ever produced), and `synthesize`
depends only on the witness values (two circuits with pointwise-equal
witnesses produce identical output values bound to identical instance
slots, for every config, backend and starting layouter). -/
theorem construction_deterministic {F : Type} [CommRing F] :
    (∀ (P Q : Params F) (m : ConstraintSystem F),
      (∀ j i, P.layer1_weights j i = Q.layer1_weights j i) →
      (∀ j i, P.layer2_weights j i = Q.layer2_weights j i) →
      configure P m = configure Q m) ∧
    (∀ (c d : NeuralNetwork F) (cfg : NeuralNetworkConfig) (b : Backend F)
        (l : LayouterState F),
      (∀ i, c.layer1_values i = d.layer1_values i) →
      (∀ i, c.layer2_values i = d.layer2_values i) →
      (∀ i, c.layer3_values i = d.layer3_values i) →
      NeuralNetwork.synthesize c cfg b l = NeuralNetwork.synthesize d cfg b l) := by
  constructor
  · intro P Q m h1 h2
    have hPQ : P = Q := by
      cases P
      cases Q
      simp only [Params.mk.injEq]
      exact ⟨funext fun j => funext fun i => h1 j i,
        funext fun j => funext fun i => h2 j i⟩
    rw [hPQ]
  · intro c d cfg b l h1 h2 h3
    have hcd : c = d := by
      cases c
      cases d
      simp only [NeuralNetwork.mk.injEq]
      exact ⟨funext h1, funext h2, funext h3⟩
    rw [hcd]

/-- Witness for `construction_deterministic`, at the concrete all-zero
integer weights and the concrete integer witness. -/
theorem construction_deterministic_witness :
    configure zeroParams csInit = configure zeroParams csInit ∧
    NeuralNetwork.synthesize intCircuit cfg0 noFail emptyLayouter =
      NeuralNetwork.synthesize intCircuit cfg0 noFail emptyLayouter :=
  ⟨(construction_deterministic.1 zeroParams zeroParams csInit
      (fun _ _ => rfl) (fun _ _ => rfl)),
    (construction_deterministic.2 intCircuit intCircuit cfg0 noFail emptyLayouter
      (fun _ => rfl) (fun _ => rfl) (fun _ => rfl))⟩

/-- C9: `without_witnesses` returns a shape-only instance in which all
10 input values, all 128 hidden values and all 10 output values are
`Unknown` (`Value::unknown()`, i.e. `none`); the lengths 10 / 128 / 10
are those of the original by the very types of the fields. -/
theorem without_witnesses_all_unknown {F : Type} (c : NeuralNetwork F) :
    (∀ i : Fin 10, (c.without_witnesses).layer1_values i = none) ∧
    (∀ i : Fin 128, (c.without_witnesses).layer2_values i = none) ∧
    (∀ i : Fin 10, (c.without_witnesses).layer3_values i = none) :=
  ⟨fun _ => rfl, fun _ => rfl, fun _ => rfl⟩

/-- C10: the claim says the hidden-layer gate closure returns exactly
128 polynomial expressions and the output gate closure exactly 10.
Neither closure returns at all: both panic on out-of-bounds weight
indexing, so neither returns a list of any length — in particular not
one of length 128 resp. 10. -/
theorem gate_closures_return_nothing {F : Type} [CommRing F] (P : Params F)
    (cols : Fin 128 → Nat) :
    (layer2GateBody cols (l1get P)).map List.length ≠ some 128 ∧
    (outLayerGateBody cols (l2get P)).map List.length ≠ some 10 := by
  rw [layer2GateBody_l1get, outLayerGateBody_l2get]
  exact ⟨fun h => by simp at h, fun h => by simp at h⟩

end NN
